import Mathlib

/-!
Verification development for the Snowflake warehouse integration
(`warehouse/integrations/snowflake/snowflake.go`).

The Go code builds SQL statements (CREATE/COPY/MERGE/ALTER) and submits
them to the backend.  The definitions below embed, on one side, the
statement-building and control-flow logic of the Go functions and, on the
other, the relational semantics of the generated SQL statements
(dedup-ranking window, MERGE insert/update arms), over tables modelled as
lists of rows.  A row is an association list from column name to value;
values are modelled as integers (timestamps such as RECEIVED_AT and
surrogate keys order as integers; NULLs are out of scope of the claims, so
a stored column always has a value, and a missing association models a
column absent from the row).
-/

namespace SnowflakeSpec

/-- A warehouse row: association list from column name to stored value. -/
abbrev Row := List (String × Int)

/-- Value of column `c` in row `r` (first binding wins, as in a record). -/
def getCol (r : Row) (c : String) : Option Int :=
  (r.find? (fun p => p.1 == c)).map (fun p => p.2)

/-- SQL equality `a.c = b.c`: true only when both sides hold a value and the
values agree (comparison with an absent value never matches). -/
def colEq (a b : Row) (c : String) : Bool :=
  match getCol a c, getCol b c with
  | some x, some y => x == y
  | _, _ => false

/-- `PARTITION BY cols` grouping: two rows fall in the same partition when
they agree on every partition column. -/
def sameKeyCols (part : List String) (a b : Row) : Bool :=
  part.all (fun c => colEq a b c)

/-- Value used by `ORDER BY col DESC` in the ranking window. -/
def orderVal (orderCol : String) (r : Row) : Int :=
  (getCol r orderCol).getD 0

/-- `j` is ranked strictly before `i` by
`row_number() OVER (PARTITION BY part ORDER BY orderCol DESC)`:
same partition and either a strictly larger order value, or an equal order
value and an earlier position (the tie-break of the window function is not
specified by SQL; position order is one admissible choice). -/
def beatsB (orderCol : String) (part : List String) (j i : Nat × Row) : Bool :=
  sameKeyCols part j.2 i.2 &&
    (decide (orderVal orderCol i.2 < orderVal orderCol j.2) ||
      (decide (orderVal orderCol i.2 = orderVal orderCol j.2) && decide (j.1 < i.1)))

/-- Rows of the staging table that get `_rudder_staging_row_number = 1`:
rows beaten by no other staged row of the same partition
(snowflake.go:449-466 and snowflake.go:489-506, and the analogous window in
`LoadIdentityMappingsTable`, snowflake.go:684-686). -/
def dedupWinners (orderCol : String) (part : List String) (staging : List Row) : List Row :=
  (staging.enum.filter
    (fun i => !(staging.enum.any (fun j => beatsB orderCol part j i)))).map Prod.snd

/-- Overwrite column `c` of row `r` with value `v` (`SET r.c = v`); a column
the row does not carry is left alone (the generated statements only set
columns present in the table). -/
def setCol (r : Row) (c : String) (v : Int) : Row :=
  r.map (fun p => if p.1 == c then (c, v) else p)

/-- `UPDATE SET original.c = staging.c` for every column `c` of `updCols`
(snowflake.go:440-442: `columnsWithValues`). -/
def updateRow (updCols : List String) (orig staged : Row) : Row :=
  updCols.foldl
    (fun acc c =>
      match getCol staged c with
      | some v => setCol acc c v
      | none => acc)
    orig

/-- The keep-first dummy update `UPDATE SET original.c = original.c`
(snowflake.go:487: `dummyColumnWithValues`). -/
def dummyUpdate (c : String) (orig : Row) : Row :=
  match getCol orig c with
  | some v => setCol orig c v
  | none => orig

/-- The MERGE join predicate
`ON (original.pk = staging.pk [AND original.e = staging.e ...])`
(snowflake.go:467-469 with `additionalJoinClause`, snowflake.go:444-446). -/
def joinMatch (pk : String) (extraJoin : List String) (orig staged : Row) : Bool :=
  colEq orig staged pk && extraJoin.all (fun c => colEq orig staged c)

/-- Semantics of the MERGE arms over a winner set `ws`:
each target row matched by a winner is updated on every column of
`updCols` from that winner (`WHEN MATCHED THEN UPDATE SET ...`), and each
winner matching no target row is inserted
(`WHEN NOT MATCHED THEN INSERT ...`). -/
def mergeUpsert (pk : String) (extraJoin updCols : List String)
    (target ws : List Row) : List Row :=
  target.map (fun orig =>
    match ws.find? (fun st => joinMatch pk extraJoin orig st) with
    | some st => updateRow updCols orig st
    | none => orig)
  ++ ws.filter (fun st => !(target.any (fun orig => joinMatch pk extraJoin orig st)))

/-- Semantics of the keep-first MERGE arms: matched target rows get only the
self-referential dummy update on `dummyCol`; non-matching winners are
inserted (snowflake.go:489-524). -/
def mergeNoopUpsert (pk : String) (extraJoin : List String) (dummyCol : String)
    (target ws : List Row) : List Row :=
  target.map (fun orig =>
    if ws.any (fun st => joinMatch pk extraJoin orig st) then dummyUpdate dummyCol orig
    else orig)
  ++ ws.filter (fun st => !(target.any (fun orig => joinMatch pk extraJoin orig st)))

/-- Rows-inserted count reported by the MERGE. -/
def mergeInsertedCount (pk : String) (extraJoin : List String)
    (target ws : List Row) : Nat :=
  (ws.filter (fun st => !(target.any (fun orig => joinMatch pk extraJoin orig st)))).length

/-- Rows-updated count reported by the MERGE (every matched target row is
touched by the MATCHED arm, also when the update is the no-op one). -/
def mergeUpdatedCount (pk : String) (extraJoin : List String)
    (target ws : List Row) : Nat :=
  (target.filter (fun orig => ws.any (fun st => joinMatch pk extraJoin orig st))).length

/-! ### Table-specific keys (snowflake.go:47-57, 59-65, 444-446)

`ToProviderCase(SNOWFLAKE, ·)` upper-cases the canonical table names, so
`usersTable = "USERS"`, `identifiesTable = "IDENTIFIES"`,
`discardsTable = "RUDDER_DISCARDS"`. -/

def usersTable : String := "USERS"

def identifiesTable : String := "IDENTIFIES"

def discardsTable : String := "RUDDER_DISCARDS"

/-- `primaryKeyMap` lookup with the `"ID"` default (snowflake.go:47-51, 421, 430-432). -/
def primaryKeyFor (tableName : String) : String :=
  if tableName == usersTable then "ID"
  else if tableName == identifiesTable then "ID"
  else if tableName == discardsTable then "ROW_ID"
  else "ID"

/-- `partitionKeyMap` lookup with the `"ID"` default (snowflake.go:53-57, 422, 433-435),
as the list of partition columns. -/
def partitionKeyFor (tableName : String) : List String :=
  if tableName == usersTable then ["ID"]
  else if tableName == identifiesTable then ["ID"]
  else if tableName == discardsTable then ["ROW_ID", "COLUMN_NAME", "TABLE_NAME"]
  else ["ID"]

/-- `additionalJoinClause` columns: only the discards table joins additionally
on TABLE_NAME and COLUMN_NAME (snowflake.go:444-446). -/
def additionalJoinFor (tableName : String) : List String :=
  if tableName == discardsTable then ["TABLE_NAME", "COLUMN_NAME"] else []

/-- `sort.Strings` (snowflake.go:322), modelled by insertion sort under the
lexicographic order on strings. -/
def sortStrings (l : List String) : List String :=
  List.insertionSort (fun a b => a ≤ b) l

/-- The dedup-merge step of `loadTable` (snowflake.go:420-525 together with the
relational semantics of the generated MERGE): sort the upload-schema columns,
pick primary/partition keys for the table, rank staged rows per partition key
by RECEIVED_AT descending and keep rank 1, then merge into the target.
Returns the merged target rows with the (inserted, updated) counts, or `none`
for the keep-first branch with an empty upload schema, where the Go code
evaluates `strKeys[0]` and panics with an out-of-range index
(snowflake.go:487). -/
def loadTableMergeRows (tableName : String) (keepLatestRecordOnDedup : Bool)
    (strKeys : List String) (target staging : List Row) :
    Option (List Row × Nat × Nat) :=
  let sortedKeys := sortStrings strKeys
  let pk := primaryKeyFor tableName
  let extra := additionalJoinFor tableName
  let part := partitionKeyFor tableName
  let ws := dedupWinners "RECEIVED_AT" part staging
  if keepLatestRecordOnDedup then
    some (mergeUpsert pk extra sortedKeys target ws,
      mergeInsertedCount pk extra target ws,
      mergeUpdatedCount pk extra target ws)
  else
    match sortedKeys.head? with
    | none => none
    | some c0 =>
        some (mergeNoopUpsert pk extra c0 target ws,
          mergeInsertedCount pk extra target ws,
          mergeUpdatedCount pk extra target ws)

/-- The MERGE of `LoadIdentityMappingsTable` (snowflake.go:682-692): rank the
staged rows per (MERGE_PROPERTY_TYPE, MERGE_PROPERTY_VALUE) by the surrogate
key "ID" descending, keep rank 1; on match update (RUDDER_ID, UPDATED_AT),
otherwise insert. -/
def identityMappingsMerge (target staging : List Row) : List Row :=
  mergeUpsert "MERGE_PROPERTY_TYPE" ["MERGE_PROPERTY_VALUE"] ["RUDDER_ID", "UPDATED_AT"]
    target
    (dedupWinners "ID" ["MERGE_PROPERTY_TYPE", "MERGE_PROPERTY_VALUE"] staging)

/-! ### Backend errors and `AddColumns` (snowflake.go:238-249, 1038-1075) -/

/-- A Go error as seen by this package: either a typed
`*snowflake.SnowflakeError` carrying an SQLState, or any other error. -/
inductive GoError where
  | snowflakeError (sqlState : String) (message : String)
  | otherError (message : String)
deriving DecidableEq, Repr

/-- `checkAndIgnoreAlreadyExistError` (snowflake.go:238-249): a nil error
counts as success; a `SnowflakeError` with SQLState "42601" is the
"already exists" case; every other error is not ignorable. -/
def checkAndIgnoreAlreadyExistError : Option GoError → Bool
  | none => true
  | some (GoError.snowflakeError sqlState _) => sqlState == "42601"
  | some (GoError.otherError _) => false

/-- A (name, abstract type) pair handed to `AddColumns`. -/
structure ColumnInfo where
  name : String
  dataType : String
deriving DecidableEq, Repr

/-- The error handling of `AddColumns` (snowflake.go:1063-1074): the ALTER is
issued once for all columns and produces `execErr`; only when exactly one
column was added is a recognized "already exists" error swallowed. -/
def addColumnsResult (columnsInfo : List ColumnInfo) (execErr : Option GoError) :
    Option GoError :=
  if columnsInfo.length == 1 then
    match execErr with
    | some e => if checkAndIgnoreAlreadyExistError (some e) then none else some e
    | none => none
  else execErr

/-- The tolerance of `LoadIdentityMappingsTable` for the autoincrement ALTER
(snowflake.go:665-669): `if err != nil && !checkAndIgnoreAlreadyExistError(err)`
returns the error, otherwise the load proceeds. -/
def identityMappingsAlterStep (execErr : Option GoError) : Option GoError :=
  match execErr with
  | some e => if checkAndIgnoreAlreadyExistError (some e) then none else some e
  | none => none

/-! ### Schema/table creation (snowflake.go:190-196, 219-236, 1011-1028) -/

/-- Backend catalog state visible to schema/table creation: which schemas
exist and which (schema, table) pairs exist. -/
structure WarehouseState where
  schemas : List String
  tables : List (String × String)
deriving DecidableEq, Repr

/-- `schemaExists` (snowflake.go:219-228): catalog lookup of the namespace. -/
def schemaExists (st : WarehouseState) (ns : String) : Bool :=
  st.schemas.contains ns

/-- Backend semantics of `CREATE SCHEMA IF NOT EXISTS` (the statement issued by
`createSchema`, snowflake.go:230-236): create the schema when absent, succeed
without change when present. -/
def execCreateSchemaIfNotExists (st : WarehouseState) (ns : String) : WarehouseState :=
  if st.schemas.contains ns then st else { st with schemas := ns :: st.schemas }

/-- `CreateSchema` (snowflake.go:1011-1024): check existence first; skip (and
issue no statement) when the schema is present, otherwise run `createSchema`.
Returns the new state, the returned error and the list of issued statements. -/
def CreateSchemaRun (st : WarehouseState) (ns : String) :
    WarehouseState × Option GoError × List String :=
  if schemaExists st ns then (st, none, [])
  else (execCreateSchemaIfNotExists st ns, none,
    ["CREATE SCHEMA IF NOT EXISTS " ++ "\"" ++ ns ++ "\""])

/-- Backend semantics of `CREATE TABLE IF NOT EXISTS` (the statement issued by
`createTable`, snowflake.go:190-196): create the table when absent, succeed
without change when present. -/
def execCreateTableIfNotExists (st : WarehouseState) (ns tableName : String) :
    WarehouseState :=
  if st.tables.contains (ns, tableName) then st
  else { st with tables := (ns, tableName) :: st.tables }

/-- `createTable`/`CreateTable` (snowflake.go:190-196, 1026-1028): always issue
the `CREATE TABLE IF NOT EXISTS` statement. -/
def createTableRun (st : WarehouseState) (ns tableName columnsSql : String) :
    WarehouseState × Option GoError × List String :=
  (execCreateTableIfNotExists st ns tableName, none,
    ["CREATE TABLE IF NOT EXISTS " ++ "\"" ++ ns ++ "\"" ++ "." ++ "\"" ++ tableName
      ++ "\"" ++ " ( " ++ columnsSql ++ " )"])

/-! ### `FetchSchema` (snowflake.go:1253-1307) -/

/-- One row of the catalog query over INFORMATION_SCHEMA.COLUMNS. -/
structure CatalogRow where
  tableName : String
  columnName : String
  dataType : String
  numericScale : Option Int
deriving DecidableEq, Repr

/-- `model.Schema`: table name → (column name → abstract type), as nested
association lists. -/
abbrev Schema := List (String × List (String × String))

/-- Set/overwrite key `c` to `v` in a string-valued association list. -/
def assocSet (r : List (String × String)) (c v : String) : List (String × String) :=
  if r.any (fun p => p.1 == c) then r.map (fun p => if p.1 == c then (c, v) else p)
  else r ++ [(c, v)]

/-- Column type recorded for `(t, c)` in a schema. -/
def schemaLookup (s : Schema) (t c : String) : Option String :=
  match s.find? (fun p => p.1 == t) with
  | some pr => (pr.2.find? (fun p => p.1 == c)).map (fun p => p.2)
  | none => none

/-- `if _, ok := schema[tableName]; !ok { schema[tableName] = make(...) }`:
ensure a (possibly empty) entry for table `t`. -/
def schemaEnsureTable (s : Schema) (t : String) : Schema :=
  if s.any (fun p => p.1 == t) then s else s ++ [(t, [])]

/-- `schema[t][c] = v`. -/
def schemaSet (s : Schema) (t c v : String) : Schema :=
  (schemaEnsureTable s t).map (fun p => if p.1 == t then (p.1, assocSet p.2 c v) else p)

/-- `warehouseutils.MissingDatatype`, the sentinel type recorded for columns
whose raw type has no mapping (constant of the warehouse utils package). -/
def missingDatatype : String := "<missing>"

/-- State threaded through the row loop of `FetchSchema`: the main schema, the
unrecognized schema, and the raw type strings for which the
missing-datatype counter was emitted. -/
structure FetchState where
  schema : Schema
  unrecognized : Schema
  metrics : List String
deriving DecidableEq, Repr

/-- One iteration of the row loop of `FetchSchema` (snowflake.go:1279-1301):
ensure the table entry in the main schema, then either record the mapped
type, or record the missing sentinel in the unrecognized schema and emit the
counter tagged with the raw type. `calc` stands for `calculateDataType`. -/
def fetchSchemaStep (calcType : String → Option Int → Option String)
    (st : FetchState) (row : CatalogRow) : FetchState :=
  let s1 := schemaEnsureTable st.schema row.tableName
  match calcType row.dataType row.numericScale with
  | some dt => { st with schema := schemaSet s1 row.tableName row.columnName dt }
  | none =>
      { schema := s1
        unrecognized := schemaSet st.unrecognized row.tableName row.columnName missingDatatype
        metrics := st.metrics ++ [row.dataType] }

/-- The row loop of `FetchSchema` over all catalog rows, from empty schemas:
it is total — an unmapped type never produces an error. -/
def fetchSchemaRows (calcType : String → Option Int → Option String)
    (rows : List CatalogRow) : FetchState :=
  rows.foldl (fetchSchemaStep calcType) ⟨[], [], []⟩

/-! ### The COPY INTO statements (snowflake.go:251-260, 321-384, 671-673) -/

/-- Go `%q` on an identifier (identifiers here contain no characters needing
escaping). -/
def quoteIdent (s : String) : String := "\"" ++ s ++ "\""

/-- `sortedColumnNames` (snowflake.go:321-325): the upload-schema column names,
sorted by `sort.Strings`, each double-quoted, comma-joined. -/
def sortedColumnNames (keys : List String) : String :=
  String.intercalate "," ((sortStrings keys).map quoteIdent)

/-- `authString` in its temporary-credentials branch (snowflake.go:251-260). -/
def authStringCreds (keyId secretKey token : String) : String :=
  "CREDENTIALS = (AWS_KEY_ID='" ++ keyId ++ "' AWS_SECRET_KEY='" ++ secretKey
    ++ "' AWS_TOKEN='" ++ token ++ "')"

/-- The COPY INTO statement of `loadTable` (snowflake.go:371-384), flattened to
a single line; the chunks follow the clauses of the Go format string. -/
def copyIntoTableStatement (schemaId stagingTable : String) (keys : List String)
    (loadFolder auth : String) : String :=
  "COPY INTO " ++ schemaId ++ "." ++ quoteIdent stagingTable ++ "("
    ++ sortedColumnNames keys ++ ") FROM '" ++ loadFolder ++ "' " ++ auth ++ " "
    ++ "PATTERN = '.*\\.csv\\.gz'"
    ++ " FILE_FORMAT = ( TYPE = csv "
    ++ "FIELD_OPTIONALLY_ENCLOSED_BY = '\"' ESCAPE_UNENCLOSED_FIELD = NONE"
    ++ ") "
    ++ "TRUNCATECOLUMNS = TRUE"
    ++ ";"

/-- The COPY INTO statement of `LoadIdentityMappingsTable` (snowflake.go:671-673),
flattened to a single line. -/
def identityMappingsCopyStatement (schemaId stagingTable loadLocation auth : String) :
    String :=
  "COPY INTO " ++ schemaId ++ "." ++ quoteIdent stagingTable
    ++ "(\"MERGE_PROPERTY_TYPE\", \"MERGE_PROPERTY_VALUE\", \"RUDDER_ID\", \"UPDATED_AT\") FROM '"
    ++ loadLocation ++ "' " ++ auth
    ++ " PATTERN = '.*\\.csv\\.gz' FILE_FORMAT = ( TYPE = csv FIELD_OPTIONALLY_ENCLOSED_BY = '\"' ESCAPE_UNENCLOSED_FIELD = NONE ) TRUNCATECOLUMNS = TRUE"

/-! ### Credential redaction (snowflake.go:386-393, 618-625, and its absence
at snowflake.go:675) -/

/-- The single-quote character delimiting embedded credential values. -/
def quoteChar : Char := Char.ofNat 39

/-- Consume characters up to and including the next single quote; `none` when
no closing quote exists (then the `[^']*'` part of the pattern cannot match). -/
def dropThroughQuote : List Char → Option (List Char)
  | [] => none
  | c :: rest => if c == quoteChar then some rest else dropThroughQuote rest

/-- `regexp.ReplaceAllString` for one pattern of the shape `pat[^']*'` with
replacement `pat***'` (`pat` ends in the opening quote): scan left to right,
and at each leftmost match mask the quoted value.  The scan is structurally
recursive on a fuel argument so that it evaluates inside the kernel; every
step consumes at least one input character, so fuel equal to the input length
(as passed by `replaceCredsList`) never runs out. -/
def replaceKeyPattern (pat : List Char) : Nat → List Char → List Char
  | 0, l => l
  | _ + 1, [] => []
  | fuel + 1, c :: rest =>
    if pat.isPrefixOf (c :: rest) then
      match dropThroughQuote ((c :: rest).drop pat.length) with
      | some rest2 =>
          pat ++ ([ '*', '*', '*', quoteChar ] ++ replaceKeyPattern pat fuel rest2)
      | none => c :: replaceKeyPattern pat fuel rest
    else c :: replaceKeyPattern pat fuel rest

/-- `misc.ReplaceMultiRegex` with the three credential patterns
(snowflake.go:386-390 and snowflake.go:618-622).  The three patterns are
applied one after the other (the Go map iteration order is immaterial for
well-formed credential values, which the theorems assume). -/
def replaceCredsList (cs : List Char) : List Char :=
  let run := fun (pat l : List Char) => replaceKeyPattern pat l.length l
  run ("AWS_TOKEN='".toList)
    (run ("AWS_SECRET_KEY='".toList)
      (run ("AWS_KEY_ID='".toList) cs))

def replaceCreds (s : String) : String :=
  String.mk (replaceCredsList s.toList)

/-- Substring occurrence test on character lists. -/
def containsPat (pat l : List Char) : Bool :=
  (List.range (l.length + 1)).any (fun i => pat.isPrefixOf (l.drop i))

/-- Substring occurrence test on strings. -/
def strContains (pat s : String) : Bool :=
  containsPat pat.toList s.toList

/-- What `loadTable` logs for the copy command (snowflake.go:386-403): the
statement after `ReplaceMultiRegex` masking (on the success path of the
regex replacement). -/
def loadTableCopyLogged (stmt : String) : String := replaceCreds stmt

/-- What `LoadIdentityMergeRulesTable` logs for its copy statement
(snowflake.go:618-625): the masked statement. -/
def identityMergeRulesCopyLogged (stmt : String) : String := replaceCreds stmt

/-- What `LoadIdentityMappingsTable` logs for its copy statement
(snowflake.go:675): the raw statement — no `ReplaceMultiRegex` call exists on
this path. -/
def identityMappingsCopyLogged (stmt : String) : String := stmt

/-! ### Connection lifecycle of a load (snowflake.go:296-319, 703-732) -/

/-- Success/failure of each backend interaction of `loadTable`, in program
order (connect snowflake.go:313, temporary-table creation :347, sample load
file location :363, COPY :405, MERGE :538, row scan :554). -/
structure LoadTableSteps where
  connectOk : Bool
  createTempOk : Bool
  sampleLocOk : Bool
  copyOk : Bool
  mergeQueryOk : Bool
  scanOk : Bool
deriving DecidableEq, Repr

/-- An exit of `loadTable`: whether it returned without error, whether the
dedicated staging connection had been opened, and whether that connection was
closed by the time of the return. -/
structure LoadTableExit where
  success : Bool
  connOpened : Bool
  connClosed : Bool
deriving DecidableEq, Repr

/-- Control flow of `loadTable` (snowflake.go:296-594) restricted to the
dedicated connection's lifecycle: the close is deferred only when
`skipClosingDBSession` is false (snowflake.go:317-319); thereafter the
function returns at the first failing step, or succeeds. -/
def loadTableConnFlow (skipClosingDBSession : Bool) (s : LoadTableSteps) :
    LoadTableExit :=
  if !s.connectOk then ⟨false, false, false⟩
  else
    let closed := !skipClosingDBSession
    if !s.createTempOk then ⟨false, true, closed⟩
    else if !s.sampleLocOk then ⟨false, true, closed⟩
    else if !s.copyOk then ⟨false, true, closed⟩
    else if !s.mergeQueryOk then ⟨false, true, closed⟩
    else if !s.scanOk then ⟨false, true, closed⟩
    else ⟨true, true, closed⟩

/-- Connection lifecycle of `loadUserTables` (snowflake.go:703-732): it calls
`loadTable` with `skipClosingDBSession = true`; when that call errors, the
handle is dropped and the error map returned; when it succeeds,
`defer resp.db.Close()` guarantees the close on every later exit
(`laterOk` abstracts the outcome of all subsequent work). -/
def loadUserTablesConnFlow (s : LoadTableSteps) (laterOk : Bool) : LoadTableExit :=
  let inner := loadTableConnFlow true s
  if inner.success then ⟨laterOk, true, true⟩ else inner

/-! ## Theorems -/

/-- C4: when exactly one column is being added and the backend error is
recognized as "already exists" (`checkAndIgnoreAlreadyExistError` returns
true), `AddColumns` returns success (nil error); when more than one column is
being added, any backend error is returned verbatim and never swallowed. -/
theorem addColumns_single_swallows_exists_multi_propagates :
    (∀ (columnsInfo : List ColumnInfo) (e : GoError),
        columnsInfo.length = 1 →
        checkAndIgnoreAlreadyExistError (some e) = true →
        addColumnsResult columnsInfo (some e) = none) ∧
    (∀ (columnsInfo : List ColumnInfo) (execErr : Option GoError),
        1 < columnsInfo.length →
        addColumnsResult columnsInfo execErr = execErr) := by
  constructor
  · intro ci e h1 h2
    simp [addColumnsResult, h1, h2]
  · intro ci execErr h
    have hne : (ci.length == 1) = false := by
      simp only [beq_eq_false_iff_ne, ne_eq]
      omega
    cases execErr <;> simp [addColumnsResult, hne]

/-- Witness for C4 at concrete inputs. -/
theorem addColumns_single_swallows_exists_multi_propagates_witness :
    addColumnsResult [⟨"CONTEXT_APP", "string"⟩]
        (some (GoError.snowflakeError "42601" "column already exists")) = none ∧
    addColumnsResult [⟨"CONTEXT_APP", "string"⟩, ⟨"CONTEXT_OS", "string"⟩]
        (some (GoError.snowflakeError "42601" "column already exists"))
      = some (GoError.snowflakeError "42601" "column already exists") :=
  ⟨addColumns_single_swallows_exists_multi_propagates.1 _ _ (by decide) (by decide),
   addColumns_single_swallows_exists_multi_propagates.2 _ _ (by decide)⟩

/-- C5: `CreateSchema` and `CreateTable` are idempotent — a second run against
the same existing target returns no error and changes nothing; the second
`CreateSchema` run finds the schema present and issues no statement at all,
and the table path goes through `CREATE TABLE IF NOT EXISTS`, which leaves an
existing table unchanged. -/
theorem createSchema_createTable_idempotent :
    ∀ (st : WarehouseState) (ns tableName columnsSql : String),
      (CreateSchemaRun (CreateSchemaRun st ns).1 ns).1 = (CreateSchemaRun st ns).1 ∧
      (CreateSchemaRun (CreateSchemaRun st ns).1 ns).2.1 = none ∧
      (CreateSchemaRun (CreateSchemaRun st ns).1 ns).2.2 = [] ∧
      (createTableRun (createTableRun st ns tableName columnsSql).1 ns tableName
          columnsSql).1
        = (createTableRun st ns tableName columnsSql).1 ∧
      (createTableRun (createTableRun st ns tableName columnsSql).1 ns tableName
          columnsSql).2.1 = none := by
  intro st ns tableName columnsSql
  have hs : schemaExists (CreateSchemaRun st ns).1 ns = true := by
    unfold CreateSchemaRun schemaExists execCreateSchemaIfNotExists
    by_cases h : ns ∈ st.schemas <;> simp [h]
  have ht : (ns, tableName) ∈ (createTableRun st ns tableName columnsSql).1.tables := by
    unfold createTableRun execCreateTableIfNotExists
    by_cases h : (ns, tableName) ∈ st.tables <;> simp [h]
  have hrun : ∀ st' : WarehouseState, schemaExists st' ns = true →
      CreateSchemaRun st' ns = (st', none, []) := by
    intro st' h
    unfold CreateSchemaRun
    simp [h]
  have hexec : ∀ st' : WarehouseState, (ns, tableName) ∈ st'.tables →
      execCreateTableIfNotExists st' ns tableName = st' := by
    intro st' h
    unfold execCreateTableIfNotExists
    simp [h]
  refine ⟨?_, ?_, ?_, ?_, ?_⟩
  · rw [hrun _ hs]
  · rw [hrun _ hs]
  · rw [hrun _ hs]
  · show execCreateTableIfNotExists (createTableRun st ns tableName columnsSql).1
        ns tableName = _
    exact hexec _ ht
  · rfl

/-- C9 counterexample: `loadTable` called with the keep-open flag
(`skipClosingDBSession = true`, as `loadUserTables` does) registers no
deferred close, so an error return after a successful connect — here a failed
COPY — exits with the dedicated connection opened and not closed, although
this is an error path, not the success path that hands the connection over. -/
theorem loadTable_keepOpen_error_exit_leaves_conn_open :
    loadTableConnFlow true
        { connectOk := true, createTempOk := true, sampleLocOk := true,
          copyOk := false, mergeQueryOk := true, scanOk := true }
      = { success := false, connOpened := true, connClosed := false } := rfl

/-- C9 (amended): once the connect succeeded, `loadTable` closes its dedicated
connection on every exit path — error or success — if and only if the
keep-open flag is off; with the flag on, no exit path of `loadTable` closes
the connection (the success path hands it to the caller, and `loadUserTables`
then closes it on every one of its own exits via `defer resp.db.Close()`). -/
theorem loadTable_conn_closed_iff_not_keepOpen :
    ∀ (skipClosingDBSession : Bool) (s : LoadTableSteps) (laterOk : Bool),
      ((loadTableConnFlow skipClosingDBSession s).connOpened = true →
        (loadTableConnFlow skipClosingDBSession s).connClosed
          = !skipClosingDBSession) ∧
      ((loadTableConnFlow true s).success = true →
        (loadUserTablesConnFlow s laterOk).connClosed = true) := by
  intro skip s laterOk
  rcases s with ⟨c1, c2, c3, c4, c5, c6⟩
  constructor
  · intro h
    cases c1 <;> cases c2 <;> cases c3 <;> cases c4 <;> cases c5 <;> cases c6 <;>
      simp_all [loadTableConnFlow]
  · intro h
    cases c1 <;> cases c2 <;> cases c3 <;> cases c4 <;> cases c5 <;> cases c6 <;>
      simp_all [loadTableConnFlow, loadUserTablesConnFlow]

/-- Witness for the amended C9 at concrete inputs. -/
theorem loadTable_conn_closed_iff_not_keepOpen_witness :
    (loadTableConnFlow false
        { connectOk := true, createTempOk := true, sampleLocOk := true,
          copyOk := false, mergeQueryOk := true, scanOk := true }).connClosed = true ∧
    (loadUserTablesConnFlow
        { connectOk := true, createTempOk := true, sampleLocOk := true,
          copyOk := true, mergeQueryOk := true, scanOk := true } true).connClosed
      = true :=
  ⟨(loadTable_conn_closed_iff_not_keepOpen false
      { connectOk := true, createTempOk := true, sampleLocOk := true,
        copyOk := false, mergeQueryOk := true, scanOk := true } true).1 rfl,
   (loadTable_conn_closed_iff_not_keepOpen true
      { connectOk := true, createTempOk := true, sampleLocOk := true,
        copyOk := true, mergeQueryOk := true, scanOk := true } true).2 rfl⟩

set_option maxRecDepth 4000 in
/-- C3 (failing path): `LoadIdentityMappingsTable` logs its COPY INTO
statement raw (snowflake.go:675) — the statement embeds the temporary
credentials from `authString` and no `ReplaceMultiRegex` masking is applied
on this path, so the raw secret appears in the emitted text and the masked
placeholder does not; the sanitizer that `loadTable` (snowflake.go:386-403)
and `LoadIdentityMergeRulesTable` (snowflake.go:618-625) apply to the very
same statement shape would have masked it. -/
theorem identityMappings_copy_logged_unredacted :
    identityMappingsCopyLogged
        (identityMappingsCopyStatement (quoteIdent "NS") "STG" "s3://b"
          (authStringCreds "AKIAKEY" "SECRETVALUE" "TOKENVALUE"))
      = identityMappingsCopyStatement (quoteIdent "NS") "STG" "s3://b"
          (authStringCreds "AKIAKEY" "SECRETVALUE" "TOKENVALUE") ∧
    strContains "AWS_SECRET_KEY='SECRETVALUE'"
        (identityMappingsCopyLogged
          (identityMappingsCopyStatement (quoteIdent "NS") "STG" "s3://b"
            (authStringCreds "AKIAKEY" "SECRETVALUE" "TOKENVALUE"))) = true ∧
    strContains "AWS_SECRET_KEY='***'"
        (identityMappingsCopyLogged
          (identityMappingsCopyStatement (quoteIdent "NS") "STG" "s3://b"
            (authStringCreds "AKIAKEY" "SECRETVALUE" "TOKENVALUE"))) = false ∧
    strContains "SECRETVALUE"
        (replaceCreds
          (identityMappingsCopyStatement (quoteIdent "NS") "STG" "s3://b"
            (authStringCreds "AKIAKEY" "SECRETVALUE" "TOKENVALUE"))) = false ∧
    strContains "AWS_SECRET_KEY='***'"
        (replaceCreds
          (identityMappingsCopyStatement (quoteIdent "NS") "STG" "s3://b"
            (authStringCreds "AKIAKEY" "SECRETVALUE" "TOKENVALUE"))) = true :=
  ⟨rfl, by decide, by decide, by decide, by decide⟩

/-- C10: with the "prefer latest record" policy disabled and an empty upload
schema, the keep-first branch of `loadTable` evaluates `strKeys[0]` on the
empty sorted column list (snowflake.go:487) — modelled as the `none` result,
the out-of-range panic — while any non-empty upload schema yields a defined
merge; a non-empty upload schema is an unstated precondition of `loadTable`. -/
theorem loadTable_keepFirst_empty_upload_schema_panics :
    ∀ (tableName : String) (target staging : List Row),
      loadTableMergeRows tableName false [] target staging = none ∧
      ∀ (k : String) (ks : List String),
        (loadTableMergeRows tableName false (k :: ks) target staging).isSome
          = true := by
  intro tableName target staging
  refine ⟨rfl, ?_⟩
  intro k ks
  have hlen : (sortStrings (k :: ks)).length = (k :: ks).length :=
    List.length_insertionSort _ _
  unfold loadTableMergeRows
  cases hsort : sortStrings (k :: ks) with
  | nil => rw [hsort] at hlen; simp at hlen
  | cons c0 cs => simp [hsort]

/-- Setting a column to the value it already holds is the identity on rows
with no duplicate column names. -/
theorem setCol_eq_self (r : Row) (c : String) (v : Int)
    (hnd : (r.map Prod.fst).Nodup) (hv : getCol r c = some v) : setCol r c v = r := by
  induction r with
  | nil => simp [getCol] at hv
  | cons p rest ih =>
      simp only [List.map_cons, List.nodup_cons] at hnd
      by_cases hpc : (p.1 == c) = true
      · have hc : p.1 = c := by simpa using hpc
        have hfind : List.find? (fun q => q.1 == c) (p :: rest) = some p := by
          rw [List.find?_cons]
          simp [hpc]
        have hv2 : p.2 = v := by
          unfold getCol at hv
          rw [hfind] at hv
          simpa using hv
        have hrest : rest.map (fun q => if q.1 == c then (c, v) else q) = rest := by
          have hcong : ∀ q ∈ rest, (if q.1 == c then (c, v) else q) = q := by
            intro q hq
            have hqc : ¬(q.1 == c) = true := by
              intro hqc
              exact hnd.1 (hc ▸ (by simpa using hqc) ▸ List.mem_map_of_mem Prod.fst hq)
            simp [hqc]
          rw [List.map_congr_left hcong]
          simp
        unfold setCol
        simp only [List.map_cons, hpc, if_true, hrest]
        rw [← hc, ← hv2]
      · have hfind : List.find? (fun q => q.1 == c) (p :: rest)
            = List.find? (fun q => q.1 == c) rest := by
          rw [List.find?_cons]
          simp [hpc]
        have hv2 : getCol rest c = some v := by
          unfold getCol at hv ⊢
          rw [hfind] at hv
          exact hv
        have hrest := ih hnd.2 hv2
        unfold setCol at hrest ⊢
        simp only [List.map_cons]
        rw [hrest]
        simp [hpc]

/-- The keep-first dummy update `original.c = original.c` never changes a row
with no duplicate column names. -/
theorem dummyUpdate_eq_self (c : String) (r : Row)
    (hnd : (r.map Prod.fst).Nodup) : dummyUpdate c r = r := by
  unfold dummyUpdate
  cases hv : getCol r c with
  | none => rfl
  | some v => exact setCol_eq_self r c v hnd hv

/-- C2: with the "prefer latest record" policy disabled, the keep-first merge
of `loadTable` leaves every column value of every existing target row
unchanged (the MATCHED arm is only the self-referential no-op update of one
column), inserts only the non-matching staged winners, and still reports every
matched target row in the updated-rows count; hence re-merging staged data
never alters previously inserted rows. -/
theorem loadTable_keepFirst_preserves_existing_values :
    ∀ (tableName : String) (strKeys : List String) (target staging : List Row),
      strKeys ≠ [] →
      (∀ r ∈ target, (r.map Prod.fst).Nodup) →
      loadTableMergeRows tableName false strKeys target staging
        = some (target ++
              (dedupWinners "RECEIVED_AT" (partitionKeyFor tableName) staging).filter
                (fun st => !(target.any (fun orig =>
                  joinMatch (primaryKeyFor tableName) (additionalJoinFor tableName)
                    orig st))),
            mergeInsertedCount (primaryKeyFor tableName) (additionalJoinFor tableName)
              target (dedupWinners "RECEIVED_AT" (partitionKeyFor tableName) staging),
            mergeUpdatedCount (primaryKeyFor tableName) (additionalJoinFor tableName)
              target (dedupWinners "RECEIVED_AT" (partitionKeyFor tableName) staging)) := by
  intro tableName strKeys target staging hsk hnd
  obtain ⟨c0, cs, hsort⟩ : ∃ c0 cs, sortStrings strKeys = c0 :: cs := by
    cases h : sortStrings strKeys with
    | nil =>
        have hlen := List.length_insertionSort (fun a b : String => a ≤ b) strKeys
        rw [show List.insertionSort (fun a b : String => a ≤ b) strKeys
          = sortStrings strKeys from rfl, h] at hlen
        cases strKeys with
        | nil => exact absurd rfl hsk
        | cons k ks => simp at hlen
    | cons c0 cs => exact ⟨c0, cs, rfl⟩
  have hnoop : mergeNoopUpsert (primaryKeyFor tableName) (additionalJoinFor tableName)
      c0 target (dedupWinners "RECEIVED_AT" (partitionKeyFor tableName) staging)
      = target ++
          (dedupWinners "RECEIVED_AT" (partitionKeyFor tableName) staging).filter
            (fun st => !(target.any (fun orig =>
              joinMatch (primaryKeyFor tableName) (additionalJoinFor tableName)
                orig st))) := by
    unfold mergeNoopUpsert
    have hmap : target.map (fun orig =>
        if (dedupWinners "RECEIVED_AT" (partitionKeyFor tableName) staging).any
            (fun st => joinMatch (primaryKeyFor tableName)
              (additionalJoinFor tableName) orig st)
        then dummyUpdate c0 orig else orig) = target := by
      have h1 : ∀ orig ∈ target,
          (if (dedupWinners "RECEIVED_AT" (partitionKeyFor tableName) staging).any
              (fun st => joinMatch (primaryKeyFor tableName)
                (additionalJoinFor tableName) orig st)
          then dummyUpdate c0 orig else orig) = orig := by
        intro o ho
        split
        · exact dummyUpdate_eq_self c0 o (hnd o ho)
        · rfl
      rw [List.map_congr_left h1]
      simp
    rw [hmap]
  unfold loadTableMergeRows
  simp only [hsort, Bool.false_eq_true, if_false, List.head?_cons]
  rw [hnoop]

/-- Witness for C2 at a concrete input: the pre-existing row keeps its value
VAL = 99 although the staged row carries VAL = 10, and the updated count is 1. -/
theorem loadTable_keepFirst_preserves_existing_values_witness :
    loadTableMergeRows "TRACKS" false ["VAL", "ID", "RECEIVED_AT"]
        [[("ID", 1), ("VAL", 99), ("RECEIVED_AT", 50)]]
        [[("ID", 1), ("VAL", 10), ("RECEIVED_AT", 100)]]
      = some ([[("ID", 1), ("VAL", 99), ("RECEIVED_AT", 50)]] ++
            (dedupWinners "RECEIVED_AT" (partitionKeyFor "TRACKS")
              [[("ID", 1), ("VAL", 10), ("RECEIVED_AT", 100)]]).filter
              (fun st => !([[("ID", 1), ("VAL", 99), ("RECEIVED_AT", 50)]].any
                (fun orig => joinMatch (primaryKeyFor "TRACKS")
                  (additionalJoinFor "TRACKS") orig st))),
          mergeInsertedCount (primaryKeyFor "TRACKS") (additionalJoinFor "TRACKS")
            [[("ID", 1), ("VAL", 99), ("RECEIVED_AT", 50)]]
            (dedupWinners "RECEIVED_AT" (partitionKeyFor "TRACKS")
              [[("ID", 1), ("VAL", 10), ("RECEIVED_AT", 100)]]),
          mergeUpdatedCount (primaryKeyFor "TRACKS") (additionalJoinFor "TRACKS")
            [[("ID", 1), ("VAL", 99), ("RECEIVED_AT", 50)]]
            (dedupWinners "RECEIVED_AT" (partitionKeyFor "TRACKS")
              [[("ID", 1), ("VAL", 10), ("RECEIVED_AT", 100)]])) :=
  loadTable_keepFirst_preserves_existing_values "TRACKS" ["VAL", "ID", "RECEIVED_AT"]
    [[("ID", 1), ("VAL", 99), ("RECEIVED_AT", 50)]]
    [[("ID", 1), ("VAL", 10), ("RECEIVED_AT", 100)]]
    (by decide) (by decide)

/-- C8: every COPY INTO statement generated for a table load names the target
columns as a comma-joined, double-quoted list sorted lexicographically — so
the column order is deterministic: schemas equal up to ordering give the
identical statement — restricts files to the pattern `.*\.csv\.gz`, uses CSV
format with `FIELD_OPTIONALLY_ENCLOSED_BY = '"'` and no escape character, and
sets `TRUNCATECOLUMNS = TRUE`. -/
theorem copyInto_statement_shape :
    ∀ (schemaId stagingTable : String) (keys keys2 : List String)
      (loadFolder auth : String),
      List.Sorted (fun a b : String => a ≤ b) (sortStrings keys) ∧
      (sortStrings keys).Perm keys ∧
      (keys.Perm keys2 →
        copyIntoTableStatement schemaId stagingTable keys loadFolder auth
          = copyIntoTableStatement schemaId stagingTable keys2 loadFolder auth) ∧
      (∃ p q, copyIntoTableStatement schemaId stagingTable keys loadFolder auth
        = p ++ "PATTERN = '.*\\.csv\\.gz'" ++ q) ∧
      (∃ p q, copyIntoTableStatement schemaId stagingTable keys loadFolder auth
        = p ++ "FILE_FORMAT = ( TYPE = csv " ++ q) ∧
      (∃ p q, copyIntoTableStatement schemaId stagingTable keys loadFolder auth
        = p ++ "FIELD_OPTIONALLY_ENCLOSED_BY = '\"' ESCAPE_UNENCLOSED_FIELD = NONE"
            ++ q) ∧
      (∃ p q, copyIntoTableStatement schemaId stagingTable keys loadFolder auth
        = p ++ "TRUNCATECOLUMNS = TRUE" ++ q) := by
  intro schemaId stagingTable keys keys2 loadFolder auth
  refine ⟨List.sorted_insertionSort _ keys, List.perm_insertionSort _ keys, ?_,
    ?_, ?_, ?_, ?_⟩
  · intro hperm
    have hsort : sortStrings keys = sortStrings keys2 :=
      List.eq_of_perm_of_sorted
        (((List.perm_insertionSort _ keys).trans hperm).trans
          (List.perm_insertionSort _ keys2).symm)
        (List.sorted_insertionSort _ keys) (List.sorted_insertionSort _ keys2)
    simp [copyIntoTableStatement, sortedColumnNames, sortStrings] at hsort ⊢
    rw [hsort]
  · exact ⟨"COPY INTO " ++ schemaId ++ "." ++ quoteIdent stagingTable ++ "("
        ++ sortedColumnNames keys ++ ") FROM '" ++ loadFolder ++ "' " ++ auth ++ " ",
      " FILE_FORMAT = ( TYPE = csv "
        ++ "FIELD_OPTIONALLY_ENCLOSED_BY = '\"' ESCAPE_UNENCLOSED_FIELD = NONE"
        ++ ") " ++ "TRUNCATECOLUMNS = TRUE" ++ ";",
      by simp [copyIntoTableStatement, String.append_assoc]⟩
  · exact ⟨"COPY INTO " ++ schemaId ++ "." ++ quoteIdent stagingTable ++ "("
        ++ sortedColumnNames keys ++ ") FROM '" ++ loadFolder ++ "' " ++ auth ++ " "
        ++ "PATTERN = '.*\\.csv\\.gz'" ++ " ",
      "FIELD_OPTIONALLY_ENCLOSED_BY = '\"' ESCAPE_UNENCLOSED_FIELD = NONE"
        ++ ") " ++ "TRUNCATECOLUMNS = TRUE" ++ ";",
      by
        have hsplit : (" FILE_FORMAT = ( TYPE = csv " : String)
            = " " ++ "FILE_FORMAT = ( TYPE = csv " := by decide
        simp [copyIntoTableStatement, hsplit, String.append_assoc]⟩
  · exact ⟨"COPY INTO " ++ schemaId ++ "." ++ quoteIdent stagingTable ++ "("
        ++ sortedColumnNames keys ++ ") FROM '" ++ loadFolder ++ "' " ++ auth ++ " "
        ++ "PATTERN = '.*\\.csv\\.gz'" ++ " FILE_FORMAT = ( TYPE = csv ",
      ") " ++ "TRUNCATECOLUMNS = TRUE" ++ ";",
      by simp [copyIntoTableStatement, String.append_assoc]⟩
  · exact ⟨"COPY INTO " ++ schemaId ++ "." ++ quoteIdent stagingTable ++ "("
        ++ sortedColumnNames keys ++ ") FROM '" ++ loadFolder ++ "' " ++ auth ++ " "
        ++ "PATTERN = '.*\\.csv\\.gz'" ++ " FILE_FORMAT = ( TYPE = csv "
        ++ "FIELD_OPTIONALLY_ENCLOSED_BY = '\"' ESCAPE_UNENCLOSED_FIELD = NONE"
        ++ ") ",
      ";",
      by simp [copyIntoTableStatement, String.append_assoc]⟩

/-- Witness for C8 at concrete inputs (two orderings of the same schema). -/
theorem copyInto_statement_shape_witness :
    copyIntoTableStatement "\"NS\"" "STG" ["USER_ID", "ID", "RECEIVED_AT"] "s3://b" "AUTH"
      = copyIntoTableStatement "\"NS\"" "STG" ["ID", "RECEIVED_AT", "USER_ID"] "s3://b" "AUTH" :=
  (copyInto_statement_shape "\"NS\"" "STG" ["USER_ID", "ID", "RECEIVED_AT"]
    ["ID", "RECEIVED_AT", "USER_ID"] "s3://b" "AUTH").2.2.1 (by decide)

/-- SQL column equality is symmetric. -/
theorem colEq_symm (a b : Row) (c : String) : colEq a b c = colEq b a c := by
  unfold colEq
  cases ha : getCol a c <;> cases hb : getCol b c
  · rfl
  · rfl
  · rfl
  · rename_i x y
    by_cases h : x = y <;> simp [h]
    intro hh
    exact h hh.symm

/-- Partition-key grouping is symmetric. -/
theorem sameKeyCols_symm (part : List String) (a b : Row) :
    sameKeyCols part a b = sameKeyCols part b a := by
  unfold sameKeyCols
  induction part with
  | nil => rfl
  | cons c cs ih =>
      simp only [List.all_cons, colEq_symm a b c]
      rw [ih]

/-- Of two staged rows in the same partition whose order values differ, the
ranking window gives rank 1 exactly to the one with the larger order value,
in either input order. -/
theorem dedupWinners_pair (o : String) (part : List String) (a b : Row)
    (hk : sameKeyCols part a b = true) (hab : orderVal o a < orderVal o b) :
    dedupWinners o part [a, b] = [b] ∧ dedupWinners o part [b, a] = [b] := by
  have hba : sameKeyCols part b a = true := by rw [← sameKeyCols_symm]; exact hk
  have h1 : ¬ (orderVal o b < orderVal o a) := not_lt.mpr (le_of_lt hab)
  have h2 : ¬ (orderVal o a = orderVal o b) := ne_of_lt hab
  have h3 : ¬ (orderVal o b = orderVal o a) := (ne_of_lt hab).symm
  constructor
  · simp [dedupWinners, beatsB, List.enum, List.enumFrom, hk, hba, hab, h1, h2, h3]
  · simp [dedupWinners, beatsB, List.enum, List.enumFrom, hk, hba, hab, h1, h2, h3]

/-- C1: with the "prefer latest record" policy enabled, the dedup merge ranks
staged rows per partition key (`"ID"` by default, the composite
(ROW_ID, COLUMN_NAME, TABLE_NAME) for the discards table) by RECEIVED_AT
descending and keeps only rank 1; the merge inserts the winner when no target
row matches the primary key (plus the discards-specific extra join
predicates) and updates every upload-schema column on a match — so of two
staged rows with the same key and different arrival timestamps, the
later-timestamped one is the one retained, regardless of input order. -/
theorem loadTable_keepLatest_latest_row_retained :
    ∀ (tableName : String) (strKeys : List String) (target : List Row) (a b : Row),
      sameKeyCols (partitionKeyFor tableName) a b = true →
      orderVal "RECEIVED_AT" a < orderVal "RECEIVED_AT" b →
      dedupWinners "RECEIVED_AT" (partitionKeyFor tableName) [a, b] = [b] ∧
      dedupWinners "RECEIVED_AT" (partitionKeyFor tableName) [b, a] = [b] ∧
      loadTableMergeRows tableName true strKeys target [a, b]
        = loadTableMergeRows tableName true strKeys target [b, a] ∧
      loadTableMergeRows tableName true strKeys target [a, b]
        = some (mergeUpsert (primaryKeyFor tableName) (additionalJoinFor tableName)
              (sortStrings strKeys) target [b],
            mergeInsertedCount (primaryKeyFor tableName) (additionalJoinFor tableName)
              target [b],
            mergeUpdatedCount (primaryKeyFor tableName) (additionalJoinFor tableName)
              target [b]) := by
  intro tableName strKeys target a b hk hab
  obtain ⟨h1, h2⟩ := dedupWinners_pair "RECEIVED_AT" (partitionKeyFor tableName) a b hk hab
  refine ⟨h1, h2, ?_, ?_⟩
  · simp [loadTableMergeRows, h1, h2]
  · simp [loadTableMergeRows, h1]

/-- Witness for C1: two identifies-style rows with the same ID and arrival
times 100 < 200; the later row is the single ranked winner in both orders. -/
theorem loadTable_keepLatest_latest_row_retained_witness :
    dedupWinners "RECEIVED_AT" (partitionKeyFor "PAGES")
        [[("ID", 1), ("TITLE", 5), ("RECEIVED_AT", 100)],
         [("ID", 1), ("TITLE", 7), ("RECEIVED_AT", 200)]]
      = [[("ID", 1), ("TITLE", 7), ("RECEIVED_AT", 200)]] ∧
    dedupWinners "RECEIVED_AT" (partitionKeyFor "PAGES")
        [[("ID", 1), ("TITLE", 7), ("RECEIVED_AT", 200)],
         [("ID", 1), ("TITLE", 5), ("RECEIVED_AT", 100)]]
      = [[("ID", 1), ("TITLE", 7), ("RECEIVED_AT", 200)]] :=
  ⟨(loadTable_keepLatest_latest_row_retained "PAGES" ["ID", "RECEIVED_AT", "TITLE"] []
      [("ID", 1), ("TITLE", 5), ("RECEIVED_AT", 100)]
      [("ID", 1), ("TITLE", 7), ("RECEIVED_AT", 200)] (by decide) (by decide)).1,
   (loadTable_keepLatest_latest_row_retained "PAGES" ["ID", "RECEIVED_AT", "TITLE"] []
      [("ID", 1), ("TITLE", 5), ("RECEIVED_AT", 100)]
      [("ID", 1), ("TITLE", 7), ("RECEIVED_AT", 200)] (by decide) (by decide)).2.1⟩

/-- C7: the identity-mappings merge keys the staged rows by
(MERGE_PROPERTY_TYPE, MERGE_PROPERTY_VALUE), keeps per key only the staged
row with the highest surrogate key "ID", updates (RUDDER_ID, UPDATED_AT) on
match and inserts otherwise — so of two staged rows with the same property
pair and different surrogate keys, only the higher-keyed row is reflected in
the target, in either input order; and the autoincrement ALTER tolerates an
"already exists" error on a re-run. -/
theorem identityMappings_higher_surrogate_retained :
    ∀ (target : List Row) (a b : Row) (ia ib : Int),
      sameKeyCols ["MERGE_PROPERTY_TYPE", "MERGE_PROPERTY_VALUE"] a b = true →
      getCol a "ID" = some ia →
      getCol b "ID" = some ib →
      ia < ib →
      dedupWinners "ID" ["MERGE_PROPERTY_TYPE", "MERGE_PROPERTY_VALUE"] [a, b]
          = [b] ∧
      dedupWinners "ID" ["MERGE_PROPERTY_TYPE", "MERGE_PROPERTY_VALUE"] [b, a]
          = [b] ∧
      identityMappingsMerge target [a, b] = identityMappingsMerge target [b, a] ∧
      identityMappingsMerge target [a, b]
        = mergeUpsert "MERGE_PROPERTY_TYPE" ["MERGE_PROPERTY_VALUE"]
            ["RUDDER_ID", "UPDATED_AT"] target [b] ∧
      (∀ m, identityMappingsAlterStep (some (GoError.snowflakeError "42601" m))
        = none) := by
  intro target a b ia ib hk ha hb hab
  have hlt : orderVal "ID" a < orderVal "ID" b := by
    unfold orderVal
    rw [ha, hb]
    exact hab
  obtain ⟨h1, h2⟩ :=
    dedupWinners_pair "ID" ["MERGE_PROPERTY_TYPE", "MERGE_PROPERTY_VALUE"] a b hk hlt
  refine ⟨h1, h2, ?_, ?_, ?_⟩
  · unfold identityMappingsMerge
    rw [h1, h2]
  · unfold identityMappingsMerge
    rw [h1]
  · intro m
    rfl

/-- Witness for C7: two mappings for the same property pair with surrogate
keys 1 < 2; the higher-keyed row is the single ranked winner in both orders. -/
theorem identityMappings_higher_surrogate_retained_witness :
    dedupWinners "ID" ["MERGE_PROPERTY_TYPE", "MERGE_PROPERTY_VALUE"]
        [[("MERGE_PROPERTY_TYPE", 1), ("MERGE_PROPERTY_VALUE", 5),
          ("RUDDER_ID", 77), ("UPDATED_AT", 10), ("ID", 1)],
         [("MERGE_PROPERTY_TYPE", 1), ("MERGE_PROPERTY_VALUE", 5),
          ("RUDDER_ID", 88), ("UPDATED_AT", 20), ("ID", 2)]]
      = [[("MERGE_PROPERTY_TYPE", 1), ("MERGE_PROPERTY_VALUE", 5),
          ("RUDDER_ID", 88), ("UPDATED_AT", 20), ("ID", 2)]] :=
  (identityMappings_higher_surrogate_retained []
    [("MERGE_PROPERTY_TYPE", 1), ("MERGE_PROPERTY_VALUE", 5),
     ("RUDDER_ID", 77), ("UPDATED_AT", 10), ("ID", 1)]
    [("MERGE_PROPERTY_TYPE", 1), ("MERGE_PROPERTY_VALUE", 5),
     ("RUDDER_ID", 88), ("UPDATED_AT", 20), ("ID", 2)]
    1 2 (by decide) (by decide) (by decide) (by decide)).1

/-- After overwriting key `c`, looking up `c` in a column list with at least
one `c` entry yields the new value. -/
theorem find_map_set_self (c v : String) :
    ∀ (r : List (String × String)), r.any (fun p => p.1 == c) = true →
      ((r.map (fun p => if p.1 == c then (c, v) else p)).find?
        (fun p => p.1 == c)).map (fun p => p.2) = some v := by
  intro r
  induction r with
  | nil => intro h; simp at h
  | cons p rest ih =>
      intro hany
      by_cases hp : (p.1 == c) = true
      · simp only [List.map_cons]
        rw [if_pos hp, List.find?_cons_of_pos _ (by simp)]
        simp
      · have hany' : rest.any (fun q => q.1 == c) = true := by
          simpa [List.any_cons, hp] using hany
        simp only [List.map_cons]
        rw [if_neg hp, List.find?_cons_of_neg _ (by exact hp)]
        exact ih hany'

/-- Looking up `c` after `assocSet r c v` yields `v`. -/
theorem assocSet_find_self (r : List (String × String)) (c v : String) :
    ((assocSet r c v).find? (fun p => p.1 == c)).map (fun p => p.2) = some v := by
  unfold assocSet
  by_cases hany : r.any (fun p => p.1 == c) = true
  · simpa [hany] using find_map_set_self c v r hany
  · have hnone : r.find? (fun p => p.1 == c) = none := by
      rw [List.find?_eq_none]
      intro x hx hpx
      exact hany (List.any_eq_true.mpr ⟨x, hx, hpx⟩)
    simp [hany, List.find?_append, hnone]

/-- Overwriting key `k` leaves lookups of a different key `c` unchanged
(map branch). -/
theorem find_map_set_other (k c v : String) (h : k ≠ c) :
    ∀ (r : List (String × String)),
      (r.map (fun p => if p.1 == k then (k, v) else p)).find? (fun p => p.1 == c)
        = r.find? (fun p => p.1 == c) := by
  intro r
  induction r with
  | nil => rfl
  | cons p rest ih =>
      by_cases hp : (p.1 == k) = true
      · have hpc : ¬ (p.1 == c) = true := by
          intro hx
          exact h (by rw [← (by simpa using hp : p.1 = k)]; simpa using hx)
        have hcc : ¬ (k == c) = true := by simpa using h
        simp only [List.map_cons]
        rw [if_pos hp, List.find?_cons_of_neg _ (by exact hcc), ih,
          List.find?_cons_of_neg _ (by exact hpc)]
      · by_cases hpc : (p.1 == c) = true
        · simp only [List.map_cons]
          rw [if_neg hp, List.find?_cons_of_pos _ (by exact hpc),
            List.find?_cons_of_pos _ (by exact hpc)]
        · simp only [List.map_cons]
          rw [if_neg hp, List.find?_cons_of_neg _ (by exact hpc),
            List.find?_cons_of_neg _ (by exact hpc)]
          exact ih

/-- `assocSet r k v` leaves lookups of a different key `c` unchanged. -/
theorem assocSet_find_other (r : List (String × String)) (k c v : String)
    (h : k ≠ c) :
    (assocSet r k v).find? (fun p => p.1 == c) = r.find? (fun p => p.1 == c) := by
  unfold assocSet
  by_cases hany : r.any (fun p => p.1 == k) = true
  · simpa [hany] using find_map_set_other k c v h r
  · have hsingle : ([(k, v)] : List (String × String)).find? (fun p => p.1 == c)
        = none := by
      simp [h]
    simp [hany, List.find?_append, hsingle]

/-- `schemaEnsureTable` never changes any column lookup. -/
theorem schemaLookup_ensure (s : Schema) (te t c : String) :
    schemaLookup (schemaEnsureTable s te) t c = schemaLookup s t c := by
  unfold schemaEnsureTable
  by_cases hany : s.any (fun p => p.1 == te) = true
  · simp [hany]
  · unfold schemaLookup
    rw [if_neg hany, List.find?_append]
    cases hf : s.find? (fun p => p.1 == t) with
    | some pr => simp
    | none =>
        by_cases htt : (te == t) = true
        · simp [htt]
        · simp [htt]

/-- The table-wise update of `schemaSet` commutes with `find?` on table keys
(the update preserves every table key). -/
theorem schema_find_map_set (s : Schema) (t t0 c v : String) :
    (s.map (fun p => if p.1 == t then (p.1, assocSet p.2 c v) else p)).find?
        (fun p => p.1 == t0)
      = (s.find? (fun p => p.1 == t0)).map
          (fun p => if p.1 == t then (p.1, assocSet p.2 c v) else p) := by
  induction s with
  | nil => rfl
  | cons p rest ih =>
      by_cases hp : (p.1 == t0) = true
      · have hkey : ((if (p.1 == t) = true then (p.1, assocSet p.2 c v) else p).1 == t0)
            = true := by
          by_cases hpt : (p.1 == t) = true <;> simp [hpt, hp]
        simp only [List.map_cons]
        rw [List.find?_cons_of_pos _ (by exact hkey), List.find?_cons_of_pos _ (by exact hp)]
        simp
      · have hkey : ¬((if (p.1 == t) = true then (p.1, assocSet p.2 c v) else p).1 == t0)
            = true := by
          by_cases hpt : (p.1 == t) = true <;> simp [hpt, hp]
        simp only [List.map_cons]
        rw [List.find?_cons_of_neg _ (by exact hkey), List.find?_cons_of_neg _ (by exact hp)]
        exact ih

/-- `schemaEnsureTable s t` always holds an entry for table `t`. -/
theorem ensure_find_self (s : Schema) (t : String) :
    ∃ pr, (schemaEnsureTable s t).find? (fun p => p.1 == t) = some pr := by
  unfold schemaEnsureTable
  by_cases hany : s.any (fun p => p.1 == t) = true
  · rw [if_pos hany]
    obtain ⟨x, hx, hpx⟩ := List.any_eq_true.mp hany
    have hsome : (s.find? (fun p => p.1 == t)).isSome :=
      List.find?_isSome.mpr ⟨x, hx, hpx⟩
    obtain ⟨pr, hpr⟩ := Option.isSome_iff_exists.mp hsome
    exact ⟨pr, hpr⟩
  · have hnone : s.find? (fun p => p.1 == t) = none := by
      rw [List.find?_eq_none]
      intro x hx hpx
      exact hany (List.any_eq_true.mpr ⟨x, hx, hpx⟩)
    refine ⟨(t, []), ?_⟩
    rw [if_neg hany, List.find?_append, hnone]
    simp

/-- `schema[t][c] = v` makes `(t, c)` look up to `v`. -/
theorem schemaLookup_set_self (s : Schema) (t c v : String) :
    schemaLookup (schemaSet s t c v) t c = some v := by
  obtain ⟨pr, hpr⟩ := ensure_find_self s t
  have hpr1 := List.find?_some hpr
  unfold schemaSet schemaLookup
  rw [schema_find_map_set, hpr]
  show ((if (pr.1 == t) = true then (pr.1, assocSet pr.2 c v) else pr).2.find?
      (fun p => p.1 == c)).map (fun p => p.2) = some v
  rw [if_pos hpr1]
  exact assocSet_find_self pr.2 c v

/-- `schema[te][ce] = v` leaves every other `(t, c)` lookup unchanged. -/
theorem schemaLookup_set_other (s : Schema) (te ce v t c : String)
    (h : ¬(te = t ∧ ce = c)) :
    schemaLookup (schemaSet s te ce v) t c = schemaLookup s t c := by
  rw [← schemaLookup_ensure s te t c]
  unfold schemaSet schemaLookup
  rw [schema_find_map_set]
  cases hf : (schemaEnsureTable s te).find? (fun p => p.1 == t) with
  | none => simp
  | some pr =>
      have hpr1 := List.find?_some hf
      by_cases hpt : (pr.1 == te) = true
      · have ht : te = t := by
          have e1 : pr.1 = t := by simpa using hpr1
          have e2 : pr.1 = te := by simpa using hpt
          rw [← e2, e1]
        have hcc : ce ≠ c := fun hceq => h ⟨ht, hceq⟩
        show ((if (pr.1 == te) = true then (pr.1, assocSet pr.2 ce v) else pr).2.find?
            (fun p => p.1 == c)).map (fun p => p.2)
          = (pr.2.find? (fun p => p.1 == c)).map (fun p => p.2)
        rw [if_pos hpt, assocSet_find_other pr.2 ce c v hcc]
      · show ((if (pr.1 == te) = true then (pr.1, assocSet pr.2 ce v) else pr).2.find?
            (fun p => p.1 == c)).map (fun p => p.2)
          = (pr.2.find? (fun p => p.1 == c)).map (fun p => p.2)
        rw [if_neg hpt]

/-- One `FetchSchema` iteration keeps an unmapped `(t, c)` absent from the
main schema. -/
theorem fetchStep_schema_none (calcType : String → Option Int → Option String)
    (st : FetchState) (row : CatalogRow) (t c : String)
    (hrow : row.tableName = t → row.columnName = c →
      calcType row.dataType row.numericScale = none)
    (h : schemaLookup st.schema t c = none) :
    schemaLookup ((fetchSchemaStep calcType st row).schema) t c = none := by
  unfold fetchSchemaStep
  cases hc : calcType row.dataType row.numericScale with
  | none => simpa [schemaLookup_ensure] using h
  | some dt =>
      by_cases he : row.tableName = t ∧ row.columnName = c
      · rw [hrow he.1 he.2] at hc
        cases hc
      · simp only
        rw [schemaLookup_set_other _ _ _ _ _ _ he, schemaLookup_ensure]
        exact h

/-- One `FetchSchema` iteration preserves a recorded missing-type sentinel. -/
theorem fetchStep_unrec_sentinel (calcType : String → Option Int → Option String)
    (st : FetchState) (row : CatalogRow) (t c : String)
    (h : schemaLookup st.unrecognized t c = some missingDatatype) :
    schemaLookup ((fetchSchemaStep calcType st row).unrecognized) t c
      = some missingDatatype := by
  unfold fetchSchemaStep
  cases hc : calcType row.dataType row.numericScale with
  | some dt => simpa using h
  | none =>
      by_cases he : row.tableName = t ∧ row.columnName = c
      · simp only
        rw [he.1, he.2, schemaLookup_set_self]
      · simp only
        rw [schemaLookup_set_other _ _ _ _ _ _ he]
        exact h

/-- One `FetchSchema` iteration only ever appends to the emitted metrics. -/
theorem fetchStep_metrics_mono (calcType : String → Option Int → Option String)
    (st : FetchState) (row : CatalogRow) (x : String) (h : x ∈ st.metrics) :
    x ∈ (fetchSchemaStep calcType st row).metrics := by
  unfold fetchSchemaStep
  cases hc : calcType row.dataType row.numericScale with
  | some dt => simpa using h
  | none => simp [h]

/-- Folding the row loop keeps an everywhere-unmapped `(t, c)` absent from the
main schema. -/
theorem fold_schema_none (calcType : String → Option Int → Option String)
    (t c : String) :
    ∀ (rows : List CatalogRow) (st : FetchState),
      (∀ r ∈ rows, r.tableName = t → r.columnName = c →
        calcType r.dataType r.numericScale = none) →
      schemaLookup st.schema t c = none →
      schemaLookup ((rows.foldl (fetchSchemaStep calcType) st).schema) t c = none := by
  intro rows
  induction rows with
  | nil => intro st _ h; simpa using h
  | cons row rest ih =>
      intro st hall h
      simp only [List.foldl_cons]
      exact ih _ (fun r hr hrt hrc => hall r (List.mem_cons_of_mem _ hr) hrt hrc)
        (fetchStep_schema_none calcType st row t c
          (hall row (List.mem_cons_self _ _)) h)

/-- Folding the row loop preserves a recorded missing-type sentinel. -/
theorem fold_unrec_sentinel (calcType : String → Option Int → Option String)
    (t c : String) :
    ∀ (rows : List CatalogRow) (st : FetchState),
      schemaLookup st.unrecognized t c = some missingDatatype →
      schemaLookup ((rows.foldl (fetchSchemaStep calcType) st).unrecognized) t c
        = some missingDatatype := by
  intro rows
  induction rows with
  | nil => intro st h; simpa using h
  | cons row rest ih =>
      intro st h
      simp only [List.foldl_cons]
      exact ih _ (fetchStep_unrec_sentinel calcType st row t c h)

/-- Folding the row loop never drops an emitted metric. -/
theorem fold_metrics_mono (calcType : String → Option Int → Option String)
    (x : String) :
    ∀ (rows : List CatalogRow) (st : FetchState),
      x ∈ st.metrics →
      x ∈ ((rows.foldl (fetchSchemaStep calcType) st).metrics) := by
  intro rows
  induction rows with
  | nil => intro st h; simpa using h
  | cons row rest ih =>
      intro st h
      simp only [List.foldl_cons]
      exact ih _ (fetchStep_metrics_mono calcType st row x h)

/-- Processing an unmapped row records the sentinel and emits the metric. -/
theorem fold_unrec_and_metric (calcType : String → Option Int → Option String)
    (t c : String) :
    ∀ (rows : List CatalogRow) (st : FetchState) (r : CatalogRow),
      r ∈ rows → r.tableName = t → r.columnName = c →
      calcType r.dataType r.numericScale = none →
      schemaLookup ((rows.foldl (fetchSchemaStep calcType) st).unrecognized) t c
          = some missingDatatype ∧
      r.dataType ∈ ((rows.foldl (fetchSchemaStep calcType) st).metrics) := by
  intro rows
  induction rows with
  | nil => intro st r hr; cases hr
  | cons row rest ih =>
      intro st r hr hrt hrc hcalc
      rcases List.mem_cons.mp hr with heq | hr'
      · subst heq
        have hstep_u : schemaLookup ((fetchSchemaStep calcType st r).unrecognized) t c
            = some missingDatatype := by
          unfold fetchSchemaStep
          rw [hcalc]
          simp only
          rw [hrt, hrc, schemaLookup_set_self]
        have hstep_m : r.dataType ∈ (fetchSchemaStep calcType st r).metrics := by
          unfold fetchSchemaStep
          rw [hcalc]
          simp
        simp only [List.foldl_cons]
        exact ⟨fold_unrec_sentinel calcType t c rest _ hstep_u,
          fold_metrics_mono calcType r.dataType rest _ hstep_m⟩
      · simp only [List.foldl_cons]
        exact ih _ r hr' hrt hrc hcalc

/-- C6: every catalog row whose raw type has no mapping entry ends up only in
the unrecognized schema with the missing-datatype sentinel as its type, the
counter metric tagged with the raw type string is emitted, the column is
absent from the main returned schema, and the (total) row loop of
`FetchSchema` does not fail because of it. -/
theorem fetchSchema_unmapped_column :
    ∀ (calcType : String → Option Int → Option String) (rows : List CatalogRow)
      (t c : String),
      (∀ r ∈ rows, r.tableName = t → r.columnName = c →
        calcType r.dataType r.numericScale = none) →
      ∀ r ∈ rows, r.tableName = t → r.columnName = c →
        schemaLookup (fetchSchemaRows calcType rows).schema t c = none ∧
        schemaLookup (fetchSchemaRows calcType rows).unrecognized t c
          = some missingDatatype ∧
        r.dataType ∈ (fetchSchemaRows calcType rows).metrics := by
  intro calcType rows t c hall r hr hrt hrc
  obtain ⟨hu, hm⟩ := fold_unrec_and_metric calcType t c rows ⟨[], [], []⟩ r hr hrt hrc
    (hall r hr hrt hrc)
  exact ⟨fold_schema_none calcType t c rows ⟨[], [], []⟩ hall rfl, hu, hm⟩

/-- Witness for C6: one recognized and one unmapped column. -/
theorem fetchSchema_unmapped_column_witness :
    schemaLookup (fetchSchemaRows
        (fun ty _ => if ty == "text" then some "string" else none)
        [⟨"T1", "C1", "text", none⟩, ⟨"T1", "C2", "GEOGRAPHY", none⟩]).schema
      "T1" "C2" = none ∧
    schemaLookup (fetchSchemaRows
        (fun ty _ => if ty == "text" then some "string" else none)
        [⟨"T1", "C1", "text", none⟩, ⟨"T1", "C2", "GEOGRAPHY", none⟩]).unrecognized
      "T1" "C2" = some missingDatatype ∧
    "GEOGRAPHY" ∈ (fetchSchemaRows
        (fun ty _ => if ty == "text" then some "string" else none)
        [⟨"T1", "C1", "text", none⟩, ⟨"T1", "C2", "GEOGRAPHY", none⟩]).metrics :=
  fetchSchema_unmapped_column
    (fun ty _ => if ty == "text" then some "string" else none)
    [⟨"T1", "C1", "text", none⟩, ⟨"T1", "C2", "GEOGRAPHY", none⟩]
    "T1" "C2" (by decide) ⟨"T1", "C2", "GEOGRAPHY", none⟩ (by decide) rfl rfl

end SnowflakeSpec
